import Mathlib

/-!
Verification of the tiered data-resolution engine of
`hackathon-agents-starter` (files `src/lib/data-access.ts` and
`src/lib/github-data-access.ts`) against its specification.

Shallow embedding conventions:
* Platform effects are environment parameters: the filesystem
  (`existsSync`/`readFileSync`) is a map `String → FsEntry`; the two
  network fetches performed during one resolution are single outcome
  values (`RawOutcome`, `ApiOutcome`); Node's `Buffer.from(_, 'base64')`
  decoder is an abstract function `b64 : String → String`.
* A TS value that may be `null`/`undefined` is an `Option`; the optional
  `parser` argument (`parser ? parser(content) : content`) is embedded as
  a total `String → Except String T`; the absent-parser case is the
  instance `T := String`, `parser := fun s => .ok s`.  A parser that
  throws is `.error msg` with `msg` the exception message.
* JS truthiness of the `mockData` value (line 94 of data-access.ts,
  `if (mockData)`) is an environment predicate `truthy : T → Bool`;
  `undefined` is `none` and is always falsy.
* Each resolution also returns a trace of provider invocations so that
  "tier X is not invoked" claims are statable.
-/

namespace AgentData

/-- Interpolation of a possibly-`undefined` string into a JS template
literal (`${x}` renders `undefined` as the text "undefined"). -/
def ostr : Option String → String
  | some s => s
  | none => "undefined"

/-- `needle` occurs as a contiguous substring of `hay` (on the character
lists of the two strings). -/
def mentions (needle hay : String) : Prop :=
  needle.data <:+: hay.data

instance (n h : String) : Decidable (mentions n h) :=
  inferInstanceAs (Decidable (n.data <:+: h.data))

/-! ### github-data-access.ts: data model -/

/-- `GitHubConfig` (github-data-access.ts lines 6-11). -/
structure GitHubConfig where
  owner : String
  repo : String
  branch : String
  basePath : String
deriving Repr, DecidableEq

/-- `DEFAULT_GITHUB_CONFIG` (github-data-access.ts lines 22-27). -/
def DEFAULT_GITHUB_CONFIG : GitHubConfig :=
  { owner := "indranilbanerjee"
    repo := "hackathon-agents-starter"
    branch := "main"
    basePath := "data/agents-seed-pack-full" }

/-- `GitHubDataResult<T>` (github-data-access.ts lines 13-19):
`data` is `T | null`, `error` and `url` are optional. -/
structure GitHubDataResult (T : Type) where
  data : Option T
  source : String
  success : Bool
  error : Option String := none
  url : Option String := none
deriving Repr, DecidableEq

/-- Outcome of the single `fetch(rawUrl)` performed by
`fetchFromGitHubRaw`: the fetch (or reading the body) threw with the
given message, or returned a non-ok HTTP status, or returned a body. -/
inductive RawOutcome where
  | rthrow (msg : String)
  | notOk (status : Nat) (statusText : String)
  | ok (body : String)
deriving Repr, DecidableEq

/-- Outcome of the single `fetch(apiUrl)` performed by
`fetchFromGitHubAPI`: threw (including a `response.json()` failure,
which the same `catch` swallows), non-ok HTTP status, or a decoded JSON
envelope of which the code reads the `type` discriminator and the
base64 `content` field. -/
inductive ApiOutcome where
  | athrow (msg : String)
  | notOk (status : Nat) (statusText : String)
  | ok (typ : String) (content : String)
deriving Repr, DecidableEq

/-- The raw URL built by `fetchFromGitHubRaw` (line 39). -/
def rawUrlOf (config : GitHubConfig) (agentDayFolder filename : String) : String :=
  "https://raw.githubusercontent.com/" ++ config.owner ++ "/" ++ config.repo ++ "/" ++
    config.branch ++ "/" ++ config.basePath ++ "/" ++ agentDayFolder ++ "/" ++ filename

/-- The contents-API URL built by `fetchFromGitHubAPI` (line 86). -/
def apiUrlOf (config : GitHubConfig) (agentDayFolder filename : String) : String :=
  "https://api.github.com/repos/" ++ config.owner ++ "/" ++ config.repo ++ "/contents/" ++
    config.basePath ++ "/" ++ agentDayFolder ++ "/" ++ filename ++ "?ref=" ++ config.branch

/-- `fetchFromGitHubRaw` (github-data-access.ts lines 32-73), as a
function of the fetch outcome.  A non-ok response yields the
`GitHub fetch failed: status statusText` error; a thrown exception
(including a parser exception, caught by the same `try`) yields its
message; a body is parsed and returned with source `"github-raw"`. -/
def fetchFromGitHubRaw {T : Type} (agentDayFolder filename : String)
    (parser : String → Except String T) (config : GitHubConfig)
    (out : RawOutcome) : GitHubDataResult T :=
  let rawUrl := rawUrlOf config agentDayFolder filename
  match out with
  | .rthrow msg =>
      { data := none, source := "github-raw", success := false,
        error := some msg, url := some rawUrl }
  | .notOk status statusText =>
      { data := none, source := "github-raw", success := false,
        error := some ("GitHub fetch failed: " ++ toString status ++ " " ++ statusText),
        url := some rawUrl }
  | .ok body =>
      match parser body with
      | .ok v =>
          { data := some v, source := "github-raw", success := true, url := some rawUrl }
      | .error msg =>
          { data := none, source := "github-raw", success := false,
            error := some msg, url := some rawUrl }

/-- `fetchFromGitHubAPI` (github-data-access.ts lines 78-142), as a
function of the fetch outcome and the platform base64 decoder.  A JSON
envelope whose `type` is not `"file"` is the `"Not a file"` failure;
otherwise the `content` field is base64-decoded and parsed.  A parser
exception is caught by the surrounding `try` and becomes the error
message. -/
def fetchFromGitHubAPI {T : Type} (agentDayFolder filename : String)
    (parser : String → Except String T) (config : GitHubConfig)
    (b64 : String → String) (out : ApiOutcome) : GitHubDataResult T :=
  let apiUrl := apiUrlOf config agentDayFolder filename
  match out with
  | .athrow msg =>
      { data := none, source := "github-api", success := false,
        error := some msg, url := some apiUrl }
  | .notOk status statusText =>
      { data := none, source := "github-api", success := false,
        error := some ("GitHub API fetch failed: " ++ toString status ++ " " ++ statusText),
        url := some apiUrl }
  | .ok typ content =>
      if typ ≠ "file" then
        { data := none, source := "github-api", success := false,
          error := some "Not a file", url := some apiUrl }
      else
        match parser (b64 content) with
        | .ok v =>
            { data := some v, source := "github-api", success := true, url := some apiUrl }
        | .error msg =>
            { data := none, source := "github-api", success := false,
              error := some msg, url := some apiUrl }

/-- Which remote tiers a call to `loadAgentDataFromGitHub` invoked, in
order. -/
inductive GhTier where
  | raw
  | api
deriving Repr, DecidableEq

/-- `loadAgentDataFromGitHub` (github-data-access.ts lines 203-240),
together with the ordered list of fetch tiers it invoked.  Raw fetch
first; on its failure the API fetch; on both failing, the mock value if
one was supplied (`mockData !== undefined`), else the
`"github-failed"` result whose error concatenates both tier errors. -/
def loadAgentDataFromGitHub {T : Type} (agentDayFolder filename : String)
    (parser : String → Except String T) (mockData : Option T)
    (config : GitHubConfig) (b64 : String → String)
    (rawOut : RawOutcome) (apiOut : ApiOutcome) :
    GitHubDataResult T × List GhTier :=
  let rawResult := fetchFromGitHubRaw agentDayFolder filename parser config rawOut
  if rawResult.success then
    (rawResult, [.raw])
  else
    let apiResult := fetchFromGitHubAPI agentDayFolder filename parser config b64 apiOut
    if apiResult.success then
      (apiResult, [.raw, .api])
    else
      match mockData with
      | some m =>
          ({ data := some m, source := "mock-data", success := true,
             error := some ("GitHub access failed, using mock data. Raw error: " ++
               ostr rawResult.error ++ ", API error: " ++ ostr apiResult.error) },
           [.raw, .api])
      | none =>
          ({ data := none, source := "github-failed", success := false,
             error := some ("All GitHub access methods failed. Raw: " ++
               ostr rawResult.error ++ ", API: " ++ ostr apiResult.error) },
           [.raw, .api])

/-- JS `String.prototype.split(sep)` on the character list: split at
every occurrence of the separator, keeping empty pieces (so the result
always has one more piece than there are separators). -/
def splitOnChar (sep : Char) : List Char → List (List Char)
  | [] => [[]]
  | c :: cs =>
      let r := splitOnChar sep cs
      if c = sep then [] :: r
      else
        match r with
        | [] => [[c]]
        | h :: t => (c :: h) :: t

/-- The whitespace characters JS `trim()` removes, restricted to the
ASCII ones occurring in this codebase's data. -/
def isJsSpace (c : Char) : Bool :=
  c = ' ' || c = '\t' || c = '\n' || c = '\r'

/-- JS `trim()`: drop leading and trailing whitespace. -/
def trimChars (l : List Char) : List Char :=
  ((l.dropWhile isJsSpace).reverse.dropWhile isJsSpace).reverse

/-- JS `trim()` on strings. -/
def jsTrim (s : String) : String :=
  ⟨trimChars s.data⟩

/-- One line as produced by splitting on `/\r?\n/`: splitting on `'\n'`
and then dropping a trailing `'\r'` from each piece is equivalent. -/
def stripCR (l : List Char) : List Char :=
  if l.getLast? = some '\r' then l.dropLast else l

/-- `parseCSV` (github-data-access.ts lines 245-258) builds each row by
JS-object assignment `obj[h] = v`: a repeated header cell overwrites the
earlier value in place, a fresh one is appended. -/
def objSet (obj : List (String × String)) (k v : String) : List (String × String) :=
  match obj with
  | [] => [(k, v)]
  | (k', v') :: rest =>
      if k' = k then (k', v) :: rest else (k', v') :: objSet rest k v

/-- `values[i]?.trim() || ''`: out-of-range access is `undefined`, and a
falsy (empty) trimmed string is replaced by `''` — which is already the
empty string, so the value is the trimmed cell or `""`. -/
def cellAt (values : List String) (i : Nat) : String :=
  match values[i]? with
  | some v => jsTrim v
  | none => ""

/-- The row object built by `parseCSV`'s `headers.forEach` loop:
fold the assignments `obj[h] = values[i]?.trim() || ''` in header order. -/
def rowObj (headers : List String) (values : List String) : List (String × String) :=
  (headers.enum.foldl (fun obj hi => objSet obj hi.2 (cellAt values hi.1)) [])

/-- `parseCSV` (github-data-access.ts lines 245-258): trim the content,
split on line breaks, first line is the header (cells split on `,` and
trimmed), every remaining line is split on `,` (no quoting or escaping)
and zipped against the headers. -/
def parseCSV (content : String) : List (List (String × String)) :=
  let lines := (splitOnChar '\n' (jsTrim content).data).map stripCR
  match lines with
  | [] => []
  | header :: rows =>
      let headers := (splitOnChar ',' header).map fun h => jsTrim ⟨h⟩
      rows.map fun row => rowObj headers ((splitOnChar ',' row).map fun l => ⟨l⟩)

/-! ### data-access.ts: data model and loadAgentData -/

/-- The slice of the registry's agent configuration that
`loadAgentData` reads (`agent.dayFolder`; the registry itself is the
external collaborator `lib/agent-registry.ts`, consumed read-only). -/
structure AgentConfig where
  dayFolder : String
deriving Repr, DecidableEq

/-- One filesystem path as seen by `existsSync`/`readFileSync`:
absent (`existsSync` false), existing but unreadable (`readFileSync`
throws with the given message), or readable with the given content. -/
inductive FsEntry where
  | absent
  | unreadable (msg : String)
  | file (content : String)
deriving Repr, DecidableEq

/-- The `githubUrls` object built by `generateGitHubUrls`
(github-data-access.ts lines 270-281). -/
structure GitHubUrls where
  raw : String
  blob : String
  api : String
  folder : String
deriving Repr, DecidableEq

/-- `generateGitHubUrls` (github-data-access.ts lines 270-281). -/
def generateGitHubUrls (agentDayFolder filename : String)
    (config : GitHubConfig) : GitHubUrls :=
  { raw := "https://raw.githubusercontent.com/" ++ config.owner ++ "/" ++ config.repo ++
      "/" ++ config.branch ++ "/" ++ config.basePath ++ "/" ++ agentDayFolder ++ "/" ++ filename
    blob := "https://github.com/" ++ config.owner ++ "/" ++ config.repo ++ "/blob/" ++
      config.branch ++ "/" ++ config.basePath ++ "/" ++ agentDayFolder ++ "/" ++ filename
    api := "https://api.github.com/repos/" ++ config.owner ++ "/" ++ config.repo ++
      "/contents/" ++ config.basePath ++ "/" ++ agentDayFolder ++ "/" ++ filename ++
      "?ref=" ++ config.branch
    folder := "https://github.com/" ++ config.owner ++ "/" ++ config.repo ++ "/tree/" ++
      config.branch ++ "/" ++ config.basePath ++ "/" ++ agentDayFolder }

/-- `DataAccessResult<T>` (data-access.ts lines 17-28). -/
structure DataAccessResult (T : Type) where
  data : Option T
  source : String
  success : Bool
  error : Option String := none
  githubUrls : Option GitHubUrls := none
deriving Repr, DecidableEq

/-- Environment of one `loadAgentData` call: the registry collaborator
(`getAgentConfig`, `getAgentDataPath`), the filesystem, the outcomes of
the two network fetches, the platform base64 decoder, and JS truthiness
on the data type (for `if (mockData)`). -/
structure Env (T : Type) where
  getAgentConfig : String → Option AgentConfig
  getAgentDataPath : String → String → List String
  fs : String → FsEntry
  rawOut : RawOutcome
  apiOut : ApiOutcome
  b64 : String → String
  truthy : T → Bool

/-- The local-candidate loop of `loadAgentData` (data-access.ts lines
53-68): for each path, if it exists, read and parse it and return
`(path, value)`; a read or parse exception is caught and the loop
continues with the next path.  Also returns the list of paths tried. -/
def tryPaths {T : Type} (parser : String → Except String T)
    (fs : String → FsEntry) : List String → Option (String × T) × List String
  | [] => (none, [])
  | p :: ps =>
      match fs p with
      | .file c =>
          match parser c with
          | .ok v => (some (p, v), [p])
          | .error _ =>
              let r := tryPaths parser fs ps
              (r.1, p :: r.2)
      | .unreadable _ =>
          let r := tryPaths parser fs ps
          (r.1, p :: r.2)
      | .absent =>
          let r := tryPaths parser fs ps
          (r.1, p :: r.2)

/-- What a single path contributes to the local tier: its parsed
content when it exists, is readable and parses; `none` otherwise. -/
def localParse {T : Type} (parser : String → Except String T)
    (fs : String → FsEntry) (p : String) : Option T :=
  match fs p with
  | .file c => (parser c).toOption
  | _ => none

/-- Provider invocations of one `loadAgentData` call, in order. -/
inductive Ev where
  | localTry (path : String)
  | remoteRaw
  | remoteApi
deriving Repr, DecidableEq

/-- Map the GitHub-internal tier trace into the resolver trace. -/
def ghEv : GhTier → Ev
  | .raw => .remoteRaw
  | .api => .remoteApi

/-- `loadAgentData` (data-access.ts lines 33-110), with the invocation
trace.  Unknown agent: immediate `success=false, source='error'` with
`data = mockData` and no provider invoked.  Otherwise: the local
candidate loop; then `loadAgentDataFromGitHub` (whose embedding never
throws, so the surrounding `try` is inert) with the default config;
a successful GitHub result is re-wrapped with source
`"github-" ++ inner source`; else a truthy `mockData` is returned with
source `"mock-data"`; else the `"not-found"` failure. -/
def loadAgentData {T : Type} (env : Env T) (agentId filename : String)
    (parser : String → Except String T) (mockData : Option T) :
    DataAccessResult T × List Ev :=
  match env.getAgentConfig agentId with
  | none =>
      ({ data := mockData, source := "error", success := false,
         error := some ("Agent '" ++ agentId ++ "' not found in registry") }, [])
  | some agent =>
      let possiblePaths := env.getAgentDataPath agentId filename
      let tried := tryPaths parser env.fs possiblePaths
      let localTrace := tried.2.map Ev.localTry
      match tried.1 with
      | some pv =>
          ({ data := some pv.2, source := pv.1, success := true }, localTrace)
      | none =>
          let githubUrls := generateGitHubUrls agent.dayFolder filename DEFAULT_GITHUB_CONFIG
          let gh := loadAgentDataFromGitHub agent.dayFolder filename parser mockData
            DEFAULT_GITHUB_CONFIG env.b64 env.rawOut env.apiOut
          let trace := localTrace ++ gh.2.map ghEv
          if gh.1.success then
            ({ data := gh.1.data, source := "github-" ++ gh.1.source, success := true,
               githubUrls := some githubUrls }, trace)
          else if (match mockData with | some m => env.truthy m | none => false) then
            ({ data := mockData, source := "mock-data", success := true,
               githubUrls := some githubUrls }, trace)
          else
            ({ data := none, source := "not-found", success := false,
               error := some ("No data file found for " ++ agentId ++ "/" ++ filename ++
                 " in local paths or GitHub"),
               githubUrls := some githubUrls }, trace)

/-! ### Concrete fixtures (used by witnesses and counterexamples) -/

/-- The absent-parser case of `parser ? parser(content) : content`: the
raw text is returned unchanged. -/
def strParser : String → Except String String := fun s => .ok s

/-- A parser that throws on every input (message "bad parse"). -/
def badParser : String → Except String Nat := fun _ => .error "bad parse"

/-- Registry with the single known agent `"meeting-actions"`. -/
def regMeeting : String → Option AgentConfig :=
  fun i => if i = "meeting-actions" then some ⟨"day08_Meeting_Action_Enforcer"⟩ else none

/-- Known agent, two candidate paths, the second one readable; both
remote fetches would 404. -/
def envLocal : Env String :=
  { getAgentConfig := regMeeting
    getAgentDataPath := fun _ _ => ["/p1", "/p2"]
    fs := fun p => if p = "/p2" then .file "hello" else .absent
    rawOut := .notOk 404 "Not Found"
    apiOut := .notOk 404 "Not Found"
    b64 := id
    truthy := fun s => s != "" }

/-- Known agent, one readable candidate path (content "x"); both remote
fetches would 404.  Used with `badParser`, whose parse failure makes the
local tier fall through. -/
def envParseFail : Env Nat :=
  { getAgentConfig := fun _ => some ⟨"day"⟩
    getAgentDataPath := fun _ _ => ["/p"]
    fs := fun p => if p = "/p" then .file "x" else .absent
    rawOut := .notOk 404 "Not Found"
    apiOut := .notOk 404 "Not Found"
    b64 := id
    truthy := fun _ => true }

/-- Empty registry: every entity id is unknown. -/
def envUnknown : Env String :=
  { getAgentConfig := fun _ => none
    getAgentDataPath := fun _ _ => []
    fs := fun _ => .absent
    rawOut := .notOk 404 "Not Found"
    apiOut := .notOk 404 "Not Found"
    b64 := id
    truthy := fun s => s != "" }

/-- Known agent, one absent candidate path, raw fetch throws "RAWBOOM",
API fetch throws "APIBOOM": every live tier fails. -/
def envAllFail : Env String :=
  { getAgentConfig := regMeeting
    getAgentDataPath := fun _ _ => ["/p1"]
    fs := fun _ => .absent
    rawOut := .rthrow "RAWBOOM"
    apiOut := .athrow "APIBOOM"
    b64 := id
    truthy := fun s => s != "" }

/-! ### Helper lemmas -/

/-- The value component of the local loop is the first candidate path at
which the file exists, is readable, and parses, paired with its parsed
content. -/
theorem tryPaths_fst_spec {T : Type} (parser : String → Except String T)
    (fs : String → FsEntry) (ps : List String) :
    (tryPaths parser fs ps).1 =
      ((ps.find? fun p => (localParse parser fs p).isSome).bind
        fun p => (localParse parser fs p).map fun v => (p, v)) := by
  induction ps with
  | nil => rfl
  | cons p ps ih =>
      cases hfs : fs p with
      | file c =>
          cases hp : parser c with
          | ok v =>
              have hloc : localParse parser fs p = some v := by
                simp [localParse, hfs, hp, Except.toOption]
              rw [List.find?_cons_of_pos _ (by simp [hloc])]
              simp [tryPaths, hfs, hp, hloc]
          | error m =>
              have hloc : localParse parser fs p = none := by
                simp [localParse, hfs, hp, Except.toOption]
              rw [List.find?_cons_of_neg _ (by simp [hloc])]
              simpa [tryPaths, hfs, hp] using ih
      | unreadable m =>
          have hloc : localParse parser fs p = none := by
            simp [localParse, hfs]
          rw [List.find?_cons_of_neg _ (by simp [hloc])]
          simpa [tryPaths, hfs] using ih
      | absent =>
          have hloc : localParse parser fs p = none := by
            simp [localParse, hfs]
          rw [List.find?_cons_of_neg _ (by simp [hloc])]
          simpa [tryPaths, hfs] using ih

/-- A successful raw fetch means the fetch returned a body that the
parser accepted, and fully determines the result. -/
theorem fetchFromGitHubRaw_success {T : Type} {agentDayFolder filename : String}
    {parser : String → Except String T} {config : GitHubConfig} {out : RawOutcome}
    (h : (fetchFromGitHubRaw agentDayFolder filename parser config out).success = true) :
    ∃ body v, out = .ok body ∧ parser body = .ok v ∧
      fetchFromGitHubRaw agentDayFolder filename parser config out =
        { data := some v, source := "github-raw", success := true,
          url := some (rawUrlOf config agentDayFolder filename) } := by
  cases out with
  | rthrow m => simp [fetchFromGitHubRaw] at h
  | notOk s t => simp [fetchFromGitHubRaw] at h
  | ok body =>
      cases hp : parser body with
      | ok v => exact ⟨body, v, rfl, hp, by simp [fetchFromGitHubRaw, hp]⟩
      | error m => simp [fetchFromGitHubRaw, hp] at h

/-- A successful API fetch means the envelope was a `"file"` whose
decoded content the parser accepted, and fully determines the result. -/
theorem fetchFromGitHubAPI_success {T : Type} {agentDayFolder filename : String}
    {parser : String → Except String T} {config : GitHubConfig}
    {b64 : String → String} {out : ApiOutcome}
    (h : (fetchFromGitHubAPI agentDayFolder filename parser config b64 out).success = true) :
    ∃ content v, out = .ok "file" content ∧ parser (b64 content) = .ok v ∧
      fetchFromGitHubAPI agentDayFolder filename parser config b64 out =
        { data := some v, source := "github-api", success := true,
          url := some (apiUrlOf config agentDayFolder filename) } := by
  cases out with
  | athrow m => simp [fetchFromGitHubAPI] at h
  | notOk s t => simp [fetchFromGitHubAPI] at h
  | ok typ content =>
      by_cases htyp : typ = "file"
      · subst htyp
        cases hp : parser (b64 content) with
        | ok v => exact ⟨content, v, rfl, hp, by simp [fetchFromGitHubAPI, hp]⟩
        | error m => simp [fetchFromGitHubAPI, hp] at h
      · simp [fetchFromGitHubAPI, htyp] at h

/-- A successful raw fetch short-circuits the GitHub chain. -/
theorem gh_of_rawSuccess {T : Type} {agentDayFolder filename : String}
    {parser : String → Except String T} {mockData : Option T} {config : GitHubConfig}
    {b64 : String → String} {rawOut : RawOutcome} {apiOut : ApiOutcome}
    (h : (fetchFromGitHubRaw agentDayFolder filename parser config rawOut).success = true) :
    loadAgentDataFromGitHub agentDayFolder filename parser mockData config b64 rawOut apiOut =
      (fetchFromGitHubRaw agentDayFolder filename parser config rawOut, [.raw]) := by
  simp [loadAgentDataFromGitHub, h]

/-- A failed raw fetch followed by a successful API fetch yields the API
result, raw having been attempted first. -/
theorem gh_of_apiSuccess {T : Type} {agentDayFolder filename : String}
    {parser : String → Except String T} {mockData : Option T} {config : GitHubConfig}
    {b64 : String → String} {rawOut : RawOutcome} {apiOut : ApiOutcome}
    (h1 : (fetchFromGitHubRaw agentDayFolder filename parser config rawOut).success = false)
    (h2 : (fetchFromGitHubAPI agentDayFolder filename parser config b64 apiOut).success = true) :
    loadAgentDataFromGitHub agentDayFolder filename parser mockData config b64 rawOut apiOut =
      (fetchFromGitHubAPI agentDayFolder filename parser config b64 apiOut, [.raw, .api]) := by
  simp [loadAgentDataFromGitHub, h1, h2]

/-- Both fetches failed and a mock value was supplied: the mock branch. -/
theorem gh_of_bothFail_mock {T : Type} {agentDayFolder filename : String}
    {parser : String → Except String T} {m : T} {config : GitHubConfig}
    {b64 : String → String} {rawOut : RawOutcome} {apiOut : ApiOutcome}
    (h1 : (fetchFromGitHubRaw agentDayFolder filename parser config rawOut).success = false)
    (h2 : (fetchFromGitHubAPI agentDayFolder filename parser config b64 apiOut).success = false) :
    loadAgentDataFromGitHub agentDayFolder filename parser (some m) config b64 rawOut apiOut =
      ({ data := some m, source := "mock-data", success := true,
         error := some ("GitHub access failed, using mock data. Raw error: " ++
           ostr (fetchFromGitHubRaw agentDayFolder filename parser config rawOut).error ++
           ", API error: " ++
           ostr (fetchFromGitHubAPI agentDayFolder filename parser config b64 apiOut).error) },
       [.raw, .api]) := by
  simp [loadAgentDataFromGitHub, h1, h2]

/-- Both fetches failed and no mock value: the `"github-failed"` result. -/
theorem gh_of_bothFail_none {T : Type} {agentDayFolder filename : String}
    {parser : String → Except String T} {config : GitHubConfig}
    {b64 : String → String} {rawOut : RawOutcome} {apiOut : ApiOutcome}
    (h1 : (fetchFromGitHubRaw agentDayFolder filename parser config rawOut).success = false)
    (h2 : (fetchFromGitHubAPI agentDayFolder filename parser config b64 apiOut).success = false) :
    loadAgentDataFromGitHub agentDayFolder filename parser (none : Option T) config b64 rawOut apiOut =
      ({ data := none, source := "github-failed", success := false,
         error := some ("All GitHub access methods failed. Raw: " ++
           ostr (fetchFromGitHubRaw agentDayFolder filename parser config rawOut).error ++
           ", API: " ++
           ostr (fetchFromGitHubAPI agentDayFolder filename parser config b64 apiOut).error) },
       [.raw, .api]) := by
  simp [loadAgentDataFromGitHub, h1, h2]

/-- A successful GitHub-chain result carries data and one of the three
success source tags. -/
theorem gh_success_shape {T : Type} {agentDayFolder filename : String}
    {parser : String → Except String T} {mockData : Option T} {config : GitHubConfig}
    {b64 : String → String} {rawOut : RawOutcome} {apiOut : ApiOutcome}
    (h : (loadAgentDataFromGitHub agentDayFolder filename parser mockData config
        b64 rawOut apiOut).1.success = true) :
    (loadAgentDataFromGitHub agentDayFolder filename parser mockData config
        b64 rawOut apiOut).1.data.isSome = true ∧
    (loadAgentDataFromGitHub agentDayFolder filename parser mockData config
        b64 rawOut apiOut).1.source ∈ (["github-raw", "github-api", "mock-data"] : List String) := by
  by_cases hraw :
      (fetchFromGitHubRaw agentDayFolder filename parser config rawOut).success = true
  · obtain ⟨body, v, -, -, heq⟩ := fetchFromGitHubRaw_success hraw
    rw [gh_of_rawSuccess hraw, heq]
    simp
  · rw [Bool.not_eq_true] at hraw
    by_cases hapi :
        (fetchFromGitHubAPI agentDayFolder filename parser config b64 apiOut).success = true
    · obtain ⟨content, v, -, -, heq⟩ := fetchFromGitHubAPI_success hapi
      rw [gh_of_apiSuccess hraw hapi, heq]
      simp
    · rw [Bool.not_eq_true] at hapi
      cases mockData with
      | some m => rw [gh_of_bothFail_mock hraw hapi]; simp
      | none => rw [gh_of_bothFail_none hraw hapi] at h; simp at h

/-- `mid` is mentioned by any string whose character list splits around
`mid`'s. -/
theorem mentions_intro {mid s : String} (pre post : List Char)
    (h : s.data = pre ++ (mid.data ++ post)) : mentions mid s :=
  ⟨pre, post, by rw [h, List.append_assoc]⟩

/-- A string with a non-empty prefix is non-empty. -/
theorem append_ne_empty_left (s t : String) (h : s ≠ "") : s ++ t ≠ "" := by
  intro h'
  apply h
  have hd := congrArg String.data h'
  rw [String.data_append] at hd
  have hnil : String.data "" = [] := by decide
  rw [hnil] at hd
  exact String.ext (List.append_eq_nil.mp hd).1

/-- After a failed raw fetch the GitHub chain always goes on to invoke
the API tier, whatever happens afterwards. -/
theorem gh_trace_of_rawFail {T : Type} {agentDayFolder filename : String}
    {parser : String → Except String T} {mockData : Option T} {config : GitHubConfig}
    {b64 : String → String} {rawOut : RawOutcome} {apiOut : ApiOutcome}
    (h : (fetchFromGitHubRaw agentDayFolder filename parser config rawOut).success = false) :
    (loadAgentDataFromGitHub agentDayFolder filename parser mockData config
      b64 rawOut apiOut).2 = [.raw, .api] := by
  cases hapi : (fetchFromGitHubAPI agentDayFolder filename parser config b64 apiOut).success
  · cases mockData <;> simp [loadAgentDataFromGitHub, h, hapi]
  · simp [loadAgentDataFromGitHub, h, hapi]

/-! ### Claims -/

/-- C1 counterexample: a known entity with one candidate path that
exists and is readable (content "x"), but whose content the supplied
parser rejects.  The claim as stated says resolution succeeds with
`source` equal to that path; in fact the local tier falls through and
resolution fails with `source = "not-found"`. -/
theorem c1_counterexample :
    envParseFail.getAgentConfig "a" = some ⟨"day"⟩ ∧
    envParseFail.getAgentDataPath "a" "f" = ["/p"] ∧
    envParseFail.fs "/p" = FsEntry.file "x" ∧
    (loadAgentData envParseFail "a" "f" badParser none).1.success = false ∧
    (loadAgentData envParseFail "a" "f" badParser none).1.source ≠ "/p" := by
  refine ⟨rfl, rfl, by decide, by decide, by decide⟩

/-- C1 (amended): for every request for a known entity where some local
candidate path exists, is readable, and its content is accepted by the
supplied parser, resolution succeeds with `source` equal to the first
such candidate path, `data` equal to that file's content parsed by the
supplied parser (the raw text when the parser is the identity embedding
of "no parser"), and neither remote tier is invoked. -/
theorem c1_local_priority {T : Type} (env : Env T) (agentId filename : String)
    (parser : String → Except String T) (mockData : Option T)
    (a : AgentConfig) (p : String)
    (hknown : env.getAgentConfig agentId = some a)
    (hfound : (env.getAgentDataPath agentId filename).find?
        (fun q => (localParse parser env.fs q).isSome) = some p) :
    (loadAgentData env agentId filename parser mockData).1.success = true ∧
    (loadAgentData env agentId filename parser mockData).1.source = p ∧
    (loadAgentData env agentId filename parser mockData).1.data =
      localParse parser env.fs p ∧
    Ev.remoteRaw ∉ (loadAgentData env agentId filename parser mockData).2 ∧
    Ev.remoteApi ∉ (loadAgentData env agentId filename parser mockData).2 := by
  have hpred := List.find?_some hfound
  obtain ⟨v, hv⟩ := Option.isSome_iff_exists.mp hpred
  have htried : (tryPaths parser env.fs (env.getAgentDataPath agentId filename)).1 =
      some (p, v) := by
    rw [tryPaths_fst_spec, hfound]
    simp [hv]
  refine ⟨?_, ?_, ?_, ?_, ?_⟩ <;>
    simp [loadAgentData, hknown, htried, hv, List.mem_map]

/-- C1 witness: a concrete environment where the second candidate path
is the first (and only) readable one; resolution returns it with the
raw file content and no remote invocation. -/
theorem c1_witness :
    (loadAgentData envLocal "meeting-actions" "t.txt" strParser none).1.success = true ∧
    (loadAgentData envLocal "meeting-actions" "t.txt" strParser none).1.source = "/p2" ∧
    (loadAgentData envLocal "meeting-actions" "t.txt" strParser none).1.data =
      localParse strParser envLocal.fs "/p2" ∧
    Ev.remoteRaw ∉ (loadAgentData envLocal "meeting-actions" "t.txt" strParser none).2 ∧
    Ev.remoteApi ∉ (loadAgentData envLocal "meeting-actions" "t.txt" strParser none).2 :=
  c1_local_priority envLocal "meeting-actions" "t.txt" strParser none
    ⟨"day08_Meeting_Action_Enforcer"⟩ "/p2" rfl (by decide)

/-- C2 counterexample: a request for an entity absent from the registry
returns `source = "error"` (data-access.ts line 44), not the
`"not-found"` the claim states. -/
theorem c2_counterexample :
    envUnknown.getAgentConfig "unknown-agent" = none ∧
    (loadAgentData envUnknown "unknown-agent" "t.txt" strParser none).1.source = "error" ∧
    (loadAgentData envUnknown "unknown-agent" "t.txt" strParser none).1.source ≠
      "not-found" := by
  refine ⟨rfl, by decide, by decide⟩

/-- C2 (amended): for every request whose entity id is not present in
the registry, resolution returns immediately with `success = false` and
`source = "error"`, the `error` string is non-empty and mentions the
entity id, and no provider tier is invoked. -/
theorem c2_unknown_entity {T : Type} (env : Env T) (agentId filename : String)
    (parser : String → Except String T) (mockData : Option T)
    (h : env.getAgentConfig agentId = none) :
    (loadAgentData env agentId filename parser mockData).1.success = false ∧
    (loadAgentData env agentId filename parser mockData).1.source = "error" ∧
    (loadAgentData env agentId filename parser mockData).2 = [] ∧
    ∃ e, (loadAgentData env agentId filename parser mockData).1.error = some e ∧
      e ≠ "" ∧ mentions agentId e := by
  refine ⟨by simp [loadAgentData, h], by simp [loadAgentData, h],
    by simp [loadAgentData, h],
    "Agent '" ++ agentId ++ "' not found in registry", by simp [loadAgentData, h], ?_, ?_⟩
  · exact append_ne_empty_left _ _ (append_ne_empty_left _ _ (by decide))
  · exact mentions_intro ("Agent '".data) ("' not found in registry".data)
      (by simp [String.data_append])

/-- C2 witness: the amended statement at a concrete empty registry. -/
theorem c2_witness :
    (loadAgentData envUnknown "unknown-agent" "t.txt" strParser none).1.success = false ∧
    (loadAgentData envUnknown "unknown-agent" "t.txt" strParser none).1.source = "error" ∧
    (loadAgentData envUnknown "unknown-agent" "t.txt" strParser none).2 = [] ∧
    ∃ e, (loadAgentData envUnknown "unknown-agent" "t.txt" strParser none).1.error =
      some e ∧ e ≠ "" ∧ mentions "unknown-agent" e :=
  c2_unknown_entity envUnknown "unknown-agent" "t.txt" strParser none rfl

/-- C3 counterexample: for an entity absent from the registry with a
supplied fallback, `loadAgentData` returns `success = false` together
with non-null `data` (the fallback, data-access.ts line 43), so `data`
non-null does not imply `success`. -/
theorem c3_counterexample :
    (loadAgentData envUnknown "unknown-agent" "t.txt" strParser
      (some "MOCK")).1.success = false ∧
    (loadAgentData envUnknown "unknown-agent" "t.txt" strParser
      (some "MOCK")).1.data = some "MOCK" :=
  ⟨rfl, rfl⟩

/-- C3 (amended): for every request on a known entity (any filename,
parser and optional fallback), `data` is non-null iff `success` is
true; for a request on an unknown entity the result has
`success = false` but `data` equal to the supplied fallback (non-null
whenever a fallback was supplied). -/
theorem c3_envelope {T : Type} (env : Env T) (agentId filename : String)
    (parser : String → Except String T) (mockData : Option T) :
    (∀ a, env.getAgentConfig agentId = some a →
      ((loadAgentData env agentId filename parser mockData).1.data.isSome = true ↔
        (loadAgentData env agentId filename parser mockData).1.success = true)) ∧
    (env.getAgentConfig agentId = none →
      (loadAgentData env agentId filename parser mockData).1.success = false ∧
      (loadAgentData env agentId filename parser mockData).1.data = mockData) := by
  constructor
  · intro a hk
    cases htried : (tryPaths parser env.fs (env.getAgentDataPath agentId filename)).1 with
    | some pv => simp [loadAgentData, hk, htried]
    | none =>
        by_cases hgh : (loadAgentDataFromGitHub a.dayFolder filename parser mockData
            DEFAULT_GITHUB_CONFIG env.b64 env.rawOut env.apiOut).1.success = true
        · have hd := (gh_success_shape hgh).1
          simp [loadAgentData, hk, htried, hgh, hd]
        · rw [Bool.not_eq_true] at hgh
          cases mockData with
          | none => simp [loadAgentData, hk, htried, hgh]
          | some m =>
              by_cases ht : env.truthy m = true
              · simp [loadAgentData, hk, htried, hgh, ht]
              · rw [Bool.not_eq_true] at ht
                simp [loadAgentData, hk, htried, hgh, ht]
  · intro h
    simp [loadAgentData, h]

/-- C3 witness: the amended envelope invariant at a known entity whose
local tier succeeds, and at an unknown entity with a fallback. -/
theorem c3_witness :
    ((loadAgentData envLocal "meeting-actions" "t.txt" strParser none).1.data.isSome = true ↔
      (loadAgentData envLocal "meeting-actions" "t.txt" strParser none).1.success = true) ∧
    ((loadAgentData envUnknown "unknown-agent" "t.txt" strParser
        (some "MOCK")).1.success = false ∧
      (loadAgentData envUnknown "unknown-agent" "t.txt" strParser
        (some "MOCK")).1.data = some "MOCK") :=
  ⟨(c3_envelope envLocal "meeting-actions" "t.txt" strParser none).1
      ⟨"day08_Meeting_Action_Enforcer"⟩ rfl,
   (c3_envelope envUnknown "unknown-agent" "t.txt" strParser (some "MOCK")).2 rfl⟩

/-- C4: for every request, the `source` of the returned result is
either one of the local candidate paths or one of the fixed tags: the
remote-raw tag `"github-github-raw"`, the remote-api tag
`"github-github-api"`, the synthetic tags `"github-mock-data"` and
`"mock-data"`, `"not-found"`, or `"error"` (the tags the source builds
as `github-` plus the inner source, plus the three literal tags). -/
theorem c4_source_vocabulary {T : Type} (env : Env T) (agentId filename : String)
    (parser : String → Except String T) (mockData : Option T) :
    (loadAgentData env agentId filename parser mockData).1.source ∈
        env.getAgentDataPath agentId filename ∨
    (loadAgentData env agentId filename parser mockData).1.source ∈
        (["github-github-raw", "github-github-api", "github-mock-data",
          "mock-data", "not-found", "error"] : List String) := by
  cases hk : env.getAgentConfig agentId with
  | none => right; simp [loadAgentData, hk]
  | some a =>
      cases htried : (tryPaths parser env.fs (env.getAgentDataPath agentId filename)).1 with
      | some pv =>
          left
          have hspec := tryPaths_fst_spec parser env.fs (env.getAgentDataPath agentId filename)
          rw [htried] at hspec
          obtain ⟨p, hfind, hmap⟩ := Option.bind_eq_some.mp hspec.symm
          have hmem := List.mem_of_find?_eq_some hfind
          obtain ⟨v, -, hpv⟩ := Option.map_eq_some'.mp hmap
          have hfst : pv.1 = p := by rw [← hpv]
          simpa [loadAgentData, hk, htried, hfst] using hmem
      | none =>
          right
          by_cases hgh : (loadAgentDataFromGitHub a.dayFolder filename parser mockData
              DEFAULT_GITHUB_CONFIG env.b64 env.rawOut env.apiOut).1.success = true
          · have hres : (loadAgentData env agentId filename parser mockData).1.source =
                "github-" ++ (loadAgentDataFromGitHub a.dayFolder filename parser mockData
                  DEFAULT_GITHUB_CONFIG env.b64 env.rawOut env.apiOut).1.source := by
              simp [loadAgentData, hk, htried, hgh]
            have hsrc := (gh_success_shape hgh).2
            rw [hres]
            rcases (by simpa using hsrc :
                (loadAgentDataFromGitHub a.dayFolder filename parser mockData
                  DEFAULT_GITHUB_CONFIG env.b64 env.rawOut env.apiOut).1.source =
                  "github-raw" ∨ _ = "github-api" ∨ _ = "mock-data") with h | h | h <;>
              rw [h] <;> decide
          · rw [Bool.not_eq_true] at hgh
            cases mockData with
            | none => simp [loadAgentData, hk, htried, hgh]
            | some m =>
                by_cases ht : env.truthy m = true
                · simp [loadAgentData, hk, htried, hgh, ht]
                · rw [Bool.not_eq_true] at ht
                  simp [loadAgentData, hk, htried, hgh, ht]

/-- C5: for every request on a known entity where every local candidate
fails, both remote fetches fail, and a fallback value was supplied, the
result has `success = true`, `data` equal (verbatim) to the supplied
fallback, and `source` equal to the synthetic tag — realized by the
code as `"mock-data"` in the GitHub chain's result and
`"github-mock-data"` in the resolver's result. -/
theorem c5_synthetic {T : Type} (env : Env T) (agentId filename : String)
    (parser : String → Except String T) (m : T) (a : AgentConfig)
    (hk : env.getAgentConfig agentId = some a)
    (hlocal : ∀ p ∈ env.getAgentDataPath agentId filename,
      localParse parser env.fs p = none)
    (hraw : (fetchFromGitHubRaw a.dayFolder filename parser
      DEFAULT_GITHUB_CONFIG env.rawOut).success = false)
    (hapi : (fetchFromGitHubAPI a.dayFolder filename parser
      DEFAULT_GITHUB_CONFIG env.b64 env.apiOut).success = false) :
    (loadAgentData env agentId filename parser (some m)).1.success = true ∧
    (loadAgentData env agentId filename parser (some m)).1.data = some m ∧
    (loadAgentData env agentId filename parser (some m)).1.source = "github-mock-data" ∧
    (loadAgentDataFromGitHub a.dayFolder filename parser (some m)
      DEFAULT_GITHUB_CONFIG env.b64 env.rawOut env.apiOut).1.source = "mock-data" := by
  have hfind : (env.getAgentDataPath agentId filename).find?
      (fun q => (localParse parser env.fs q).isSome) = none :=
    List.find?_eq_none.mpr (fun p hp => by simp [hlocal p hp])
  have htried : (tryPaths parser env.fs (env.getAgentDataPath agentId filename)).1 =
      none := by
    rw [tryPaths_fst_spec, hfind]
    rfl
  have hgh := @gh_of_bothFail_mock T a.dayFolder filename parser m
    DEFAULT_GITHUB_CONFIG env.b64 env.rawOut env.apiOut hraw hapi
  refine ⟨?_, ?_, ?_, by rw [hgh]⟩ <;> simp [loadAgentData, hk, htried, hgh]

/-- C5 witness: in the all-tiers-fail environment with fallback "MOCK",
resolution succeeds with the synthetic tags and the fallback verbatim. -/
theorem c5_witness :
    (loadAgentData envAllFail "meeting-actions" "t.txt" strParser
      (some "MOCK")).1.success = true ∧
    (loadAgentData envAllFail "meeting-actions" "t.txt" strParser
      (some "MOCK")).1.data = some "MOCK" ∧
    (loadAgentData envAllFail "meeting-actions" "t.txt" strParser
      (some "MOCK")).1.source = "github-mock-data" ∧
    (loadAgentDataFromGitHub "day08_Meeting_Action_Enforcer" "t.txt" strParser
      (some "MOCK") DEFAULT_GITHUB_CONFIG envAllFail.b64 envAllFail.rawOut
      envAllFail.apiOut).1.source = "mock-data" :=
  c5_synthetic envAllFail "meeting-actions" "t.txt" strParser "MOCK"
    ⟨"day08_Meeting_Action_Enforcer"⟩ rfl (by decide) (by decide) (by decide)

set_option maxRecDepth 4000 in
/-- C6 counterexample: every tier fails (raw fetch throws "RAWBOOM",
API fetch throws "APIBOOM"), no fallback.  The result's error is the
generic not-found message, which mentions neither remote tier's
individual failure reason, contradicting the claim. -/
theorem c6_counterexample :
    (loadAgentData envAllFail "meeting-actions" "t.txt" strParser none).1.success = false ∧
    (loadAgentData envAllFail "meeting-actions" "t.txt" strParser none).1.data = none ∧
    (fetchFromGitHubRaw "day08_Meeting_Action_Enforcer" "t.txt" strParser
      DEFAULT_GITHUB_CONFIG envAllFail.rawOut).error = some "RAWBOOM" ∧
    (fetchFromGitHubAPI "day08_Meeting_Action_Enforcer" "t.txt" strParser
      DEFAULT_GITHUB_CONFIG envAllFail.b64 envAllFail.apiOut).error = some "APIBOOM" ∧
    (loadAgentData envAllFail "meeting-actions" "t.txt" strParser none).1.error =
      some "No data file found for meeting-actions/t.txt in local paths or GitHub" ∧
    ¬ mentions "RAWBOOM"
      "No data file found for meeting-actions/t.txt in local paths or GitHub" ∧
    ¬ mentions "APIBOOM"
      "No data file found for meeting-actions/t.txt in local paths or GitHub" := by
  refine ⟨by decide, by decide, by decide, by decide, by decide, by decide, by decide⟩

/-- C6 (amended): when every tier fails on a known entity and no
fallback was supplied, the result has `success = false`, `data = null`,
and a non-empty `error` that names the entity id and filename (the
generic not-found message) — it does not carry the per-tier failure
reasons; those appear only in the GitHub chain's own error string,
which `loadAgentData` discards. -/
theorem c6_total_failure {T : Type} (env : Env T) (agentId filename : String)
    (parser : String → Except String T) (a : AgentConfig)
    (hk : env.getAgentConfig agentId = some a)
    (hlocal : ∀ p ∈ env.getAgentDataPath agentId filename,
      localParse parser env.fs p = none)
    (hraw : (fetchFromGitHubRaw a.dayFolder filename parser
      DEFAULT_GITHUB_CONFIG env.rawOut).success = false)
    (hapi : (fetchFromGitHubAPI a.dayFolder filename parser
      DEFAULT_GITHUB_CONFIG env.b64 env.apiOut).success = false) :
    (loadAgentData env agentId filename parser none).1.success = false ∧
    (loadAgentData env agentId filename parser none).1.data = none ∧
    (∃ e, (loadAgentData env agentId filename parser none).1.error = some e ∧
      e ≠ "" ∧ mentions agentId e ∧ mentions filename e) ∧
    (∀ mr, (fetchFromGitHubRaw a.dayFolder filename parser
        DEFAULT_GITHUB_CONFIG env.rawOut).error = some mr →
      ∃ ei, (loadAgentDataFromGitHub a.dayFolder filename parser none
          DEFAULT_GITHUB_CONFIG env.b64 env.rawOut env.apiOut).1.error = some ei ∧
        mentions mr ei) ∧
    (∀ ma, (fetchFromGitHubAPI a.dayFolder filename parser
        DEFAULT_GITHUB_CONFIG env.b64 env.apiOut).error = some ma →
      ∃ ei, (loadAgentDataFromGitHub a.dayFolder filename parser none
          DEFAULT_GITHUB_CONFIG env.b64 env.rawOut env.apiOut).1.error = some ei ∧
        mentions ma ei) := by
  have hfind : (env.getAgentDataPath agentId filename).find?
      (fun q => (localParse parser env.fs q).isSome) = none :=
    List.find?_eq_none.mpr (fun p hp => by simp [hlocal p hp])
  have htried : (tryPaths parser env.fs (env.getAgentDataPath agentId filename)).1 =
      none := by
    rw [tryPaths_fst_spec, hfind]
    rfl
  have hgh := @gh_of_bothFail_none T a.dayFolder filename parser
    DEFAULT_GITHUB_CONFIG env.b64 env.rawOut env.apiOut hraw hapi
  refine ⟨by simp [loadAgentData, hk, htried, hgh],
    by simp [loadAgentData, hk, htried, hgh], ?_, ?_, ?_⟩
  · refine ⟨"No data file found for " ++ agentId ++ "/" ++ filename ++
        " in local paths or GitHub",
      by simp [loadAgentData, hk, htried, hgh], ?_, ?_, ?_⟩
    · exact append_ne_empty_left _ _ (append_ne_empty_left _ _
        (append_ne_empty_left _ _ (append_ne_empty_left _ _ (by decide))))
    · exact mentions_intro ("No data file found for ".data)
        (("/" ++ filename ++ " in local paths or GitHub").data)
        (by simp [String.data_append])
    · exact mentions_intro (("No data file found for " ++ agentId ++ "/").data)
        (" in local paths or GitHub".data)
        (by simp [String.data_append])
  · intro mr hmr
    refine ⟨"All GitHub access methods failed. Raw: " ++
        ostr (fetchFromGitHubRaw a.dayFolder filename parser
          DEFAULT_GITHUB_CONFIG env.rawOut).error ++ ", API: " ++
        ostr (fetchFromGitHubAPI a.dayFolder filename parser
          DEFAULT_GITHUB_CONFIG env.b64 env.apiOut).error,
      by rw [hgh], ?_⟩
    exact mentions_intro ("All GitHub access methods failed. Raw: ".data)
      ((", API: " ++ ostr (fetchFromGitHubAPI a.dayFolder filename parser
        DEFAULT_GITHUB_CONFIG env.b64 env.apiOut).error).data)
      (by simp [String.data_append, hmr, ostr])
  · intro ma hma
    refine ⟨"All GitHub access methods failed. Raw: " ++
        ostr (fetchFromGitHubRaw a.dayFolder filename parser
          DEFAULT_GITHUB_CONFIG env.rawOut).error ++ ", API: " ++
        ostr (fetchFromGitHubAPI a.dayFolder filename parser
          DEFAULT_GITHUB_CONFIG env.b64 env.apiOut).error,
      by rw [hgh], ?_⟩
    exact mentions_intro (("All GitHub access methods failed. Raw: " ++
        ostr (fetchFromGitHubRaw a.dayFolder filename parser
          DEFAULT_GITHUB_CONFIG env.rawOut).error ++ ", API: ").data)
      [] (by simp [String.data_append, hma, ostr])

/-- C6 witness: the amended total-failure statement in the concrete
all-tiers-fail environment. -/
theorem c6_witness :
    (loadAgentData envAllFail "meeting-actions" "t.txt" strParser none).1.success = false ∧
    (loadAgentData envAllFail "meeting-actions" "t.txt" strParser none).1.data = none ∧
    (∃ e, (loadAgentData envAllFail "meeting-actions" "t.txt" strParser none).1.error =
        some e ∧ e ≠ "" ∧ mentions "meeting-actions" e ∧ mentions "t.txt" e) ∧
    (∀ mr, (fetchFromGitHubRaw "day08_Meeting_Action_Enforcer" "t.txt" strParser
        DEFAULT_GITHUB_CONFIG envAllFail.rawOut).error = some mr →
      ∃ ei, (loadAgentDataFromGitHub "day08_Meeting_Action_Enforcer" "t.txt" strParser
          none DEFAULT_GITHUB_CONFIG envAllFail.b64 envAllFail.rawOut
          envAllFail.apiOut).1.error = some ei ∧ mentions mr ei) ∧
    (∀ ma, (fetchFromGitHubAPI "day08_Meeting_Action_Enforcer" "t.txt" strParser
        DEFAULT_GITHUB_CONFIG envAllFail.b64 envAllFail.apiOut).error = some ma →
      ∃ ei, (loadAgentDataFromGitHub "day08_Meeting_Action_Enforcer" "t.txt" strParser
          none DEFAULT_GITHUB_CONFIG envAllFail.b64 envAllFail.rawOut
          envAllFail.apiOut).1.error = some ei ∧ mentions ma ei) :=
  c6_total_failure envAllFail "meeting-actions" "t.txt" strParser
    ⟨"day08_Meeting_Action_Enforcer"⟩ rfl (by decide) (by decide) (by decide)

/-- C7: when the raw fetch fails and the API fetch returns a file-typed
base64 payload that the parser accepts, the GitHub chain succeeds with
the remote-api tag `"github-api"` and the decoded, parsed content; the
raw tier is always attempted first, and after a raw failure the API
tier is always invoked next. -/
theorem c7_remote_fallthrough {T : Type} (agentDayFolder filename : String)
    (parser : String → Except String T) (mockData : Option T) (config : GitHubConfig)
    (b64 : String → String) (rawOut : RawOutcome) (content : String) (v : T)
    (hraw : (fetchFromGitHubRaw agentDayFolder filename parser config rawOut).success
      = false)
    (hparse : parser (b64 content) = .ok v) :
    (loadAgentDataFromGitHub agentDayFolder filename parser mockData config b64 rawOut
      (.ok "file" content)).1.success = true ∧
    (loadAgentDataFromGitHub agentDayFolder filename parser mockData config b64 rawOut
      (.ok "file" content)).1.source = "github-api" ∧
    (loadAgentDataFromGitHub agentDayFolder filename parser mockData config b64 rawOut
      (.ok "file" content)).1.data = some v ∧
    (loadAgentDataFromGitHub agentDayFolder filename parser mockData config b64 rawOut
      (.ok "file" content)).2 = [GhTier.raw, GhTier.api] ∧
    (∀ ro : RawOutcome, ∀ ao : ApiOutcome,
      (loadAgentDataFromGitHub agentDayFolder filename parser mockData config
        b64 ro ao).2 = [GhTier.raw] ∨
      (loadAgentDataFromGitHub agentDayFolder filename parser mockData config
        b64 ro ao).2 = [GhTier.raw, GhTier.api]) ∧
    (∀ ro : RawOutcome, ∀ ao : ApiOutcome,
      (fetchFromGitHubRaw agentDayFolder filename parser config ro).success = true →
      (loadAgentDataFromGitHub agentDayFolder filename parser mockData config
        b64 ro ao).2 = [GhTier.raw]) := by
  have hapi : (fetchFromGitHubAPI agentDayFolder filename parser config b64
      (.ok "file" content)).success = true := by
    simp [fetchFromGitHubAPI, hparse]
  have hgh := @gh_of_apiSuccess T agentDayFolder filename parser mockData config
    b64 rawOut (.ok "file" content) hraw hapi
  refine ⟨by rw [hgh]; exact hapi, by rw [hgh]; simp [fetchFromGitHubAPI, hparse],
    by rw [hgh]; simp [fetchFromGitHubAPI, hparse], by rw [hgh], ?_, ?_⟩
  · intro ro ao
    cases hr : (fetchFromGitHubRaw agentDayFolder filename parser config ro).success
    · right
      exact gh_trace_of_rawFail hr
    · left
      rw [gh_of_rawSuccess hr]
  · intro ro ao hr
    rw [gh_of_rawSuccess hr]

/-- C7 witness: raw fetch 404, API returns a file payload decoded by
the identity decoder; and at a raw success the API tier is skipped. -/
theorem c7_witness :
    (loadAgentDataFromGitHub "d" "f" strParser none DEFAULT_GITHUB_CONFIG id
      (.notOk 404 "Not Found") (.ok "file" "payload")).1.success = true ∧
    (loadAgentDataFromGitHub "d" "f" strParser none DEFAULT_GITHUB_CONFIG id
      (.notOk 404 "Not Found") (.ok "file" "payload")).1.source = "github-api" ∧
    (loadAgentDataFromGitHub "d" "f" strParser none DEFAULT_GITHUB_CONFIG id
      (.notOk 404 "Not Found") (.ok "file" "payload")).1.data = some "payload" ∧
    (loadAgentDataFromGitHub "d" "f" strParser none DEFAULT_GITHUB_CONFIG id
      (.notOk 404 "Not Found") (.ok "file" "payload")).2 = [GhTier.raw, GhTier.api] ∧
    (loadAgentDataFromGitHub "d" "f" strParser none DEFAULT_GITHUB_CONFIG id
      (.ok "BODY") (.ok "file" "payload")).2 = [GhTier.raw] := by
  have h := c7_remote_fallthrough "d" "f" strParser none DEFAULT_GITHUB_CONFIG id
    (.notOk 404 "Not Found") "payload" "payload" (by decide) rfl
  exact ⟨h.1, h.2.1, h.2.2.1, h.2.2.2.1,
    h.2.2.2.2.2 (.ok "BODY") (.ok "file" "payload") (by decide)⟩

set_option maxRecDepth 8000 in
/-- C8: the delimited-table parser maps header "a,b" and data line
"1,2" to the single row `{a: "1", b: "2"}`; cells are trimmed of
leading and trailing whitespace (second conjunct), a missing value cell
becomes the empty string (third conjunct), and delimiters are split
naively with no quoting or escaping (fourth conjunct: a quoted value
containing a comma is cut at the comma). -/
theorem c8_parseCSV :
    parseCSV "a,b\n1,2" = [[("a", "1"), ("b", "2")]] ∧
    parseCSV " a , b \r\n 1 , 2 \n3,4" =
      [[("a", "1"), ("b", "2")], [("a", "3"), ("b", "4")]] ∧
    parseCSV "a,b,c\n1,2" = [[("a", "1"), ("b", "2"), ("c", "")]] ∧
    parseCSV "a,b\n\"1,2\",3" = [[("a", "\"1"), ("b", "2\"")]] := by
  refine ⟨by decide, by decide, by decide, by decide⟩

/-- C9: a parse failure is a soft failure of the tier that obtained the
raw content.  In the local loop a candidate whose content the parser
rejects is skipped exactly like a missing candidate (first conjunct);
in the raw tier the fetch result is `success = false` carrying the
parser's message, and the chain goes on to invoke the API tier (second
to fourth conjuncts); in the API tier a parse failure after base64
decoding is likewise a failed result, not an exception (last two
conjuncts). -/
theorem c9_parse_failure {T : Type} (parser : String → Except String T)
    (fs : String → FsEntry) (p : String) (ps : List String) (c m : String)
    (agentDayFolder filename : String) (config : GitHubConfig) (b64 : String → String)
    (body m2 : String) (mockData : Option T) (apiOut : ApiOutcome) (content m3 : String)
    (h1 : fs p = .file c) (h2 : parser c = .error m)
    (h3 : parser body = .error m2)
    (h4 : parser (b64 content) = .error m3) :
    (tryPaths parser fs (p :: ps)).1 = (tryPaths parser fs ps).1 ∧
    (fetchFromGitHubRaw agentDayFolder filename parser config (.ok body)).success
      = false ∧
    (fetchFromGitHubRaw agentDayFolder filename parser config (.ok body)).error
      = some m2 ∧
    (loadAgentDataFromGitHub agentDayFolder filename parser mockData config b64
      (.ok body) apiOut).2 = [GhTier.raw, GhTier.api] ∧
    (fetchFromGitHubAPI agentDayFolder filename parser config b64
      (.ok "file" content)).success = false ∧
    (fetchFromGitHubAPI agentDayFolder filename parser config b64
      (.ok "file" content)).error = some m3 := by
  have hraw : (fetchFromGitHubRaw agentDayFolder filename parser config
      (.ok body)).success = false := by
    simp [fetchFromGitHubRaw, h3]
  exact ⟨by simp [tryPaths, h1, h2], hraw, by simp [fetchFromGitHubRaw, h3],
    gh_trace_of_rawFail hraw, by simp [fetchFromGitHubAPI, h4],
    by simp [fetchFromGitHubAPI, h4]⟩

/-- C9 witness: the always-failing parser at a readable local file, a
fetched raw body, and a file-typed API payload. -/
theorem c9_witness :
    (tryPaths badParser envParseFail.fs ["/p"]).1 =
      (tryPaths badParser envParseFail.fs []).1 ∧
    (fetchFromGitHubRaw "d" "f" badParser DEFAULT_GITHUB_CONFIG (.ok "B")).success
      = false ∧
    (fetchFromGitHubRaw "d" "f" badParser DEFAULT_GITHUB_CONFIG (.ok "B")).error
      = some "bad parse" ∧
    (loadAgentDataFromGitHub "d" "f" badParser none DEFAULT_GITHUB_CONFIG id
      (.ok "B") (.notOk 404 "Not Found")).2 = [GhTier.raw, GhTier.api] ∧
    (fetchFromGitHubAPI "d" "f" badParser DEFAULT_GITHUB_CONFIG id
      (.ok "file" "CT")).success = false ∧
    (fetchFromGitHubAPI "d" "f" badParser DEFAULT_GITHUB_CONFIG id
      (.ok "file" "CT")).error = some "bad parse" :=
  c9_parse_failure badParser envParseFail.fs "/p" [] "x" "bad parse" "d" "f"
    DEFAULT_GITHUB_CONFIG id "B" "bad parse" none (.notOk 404 "Not Found")
    "CT" "bad parse" (by decide) rfl rfl rfl

/-- C10 (implicit): when both GitHub fetches fail and a mock value was
supplied, `loadAgentDataFromGitHub` returns `success = true` together
with a non-empty `error` recording both the raw-fetch and the API-fetch
failure reasons — success of the synthetic tier does not imply an
absent `error` field. -/
theorem c10_mock_success_error {T : Type} (agentDayFolder filename : String)
    (parser : String → Except String T) (config : GitHubConfig) (b64 : String → String)
    (rawOut : RawOutcome) (apiOut : ApiOutcome) (mv : T) (mr ma : String)
    (h1 : (fetchFromGitHubRaw agentDayFolder filename parser config rawOut).success
      = false)
    (h1e : (fetchFromGitHubRaw agentDayFolder filename parser config rawOut).error
      = some mr)
    (h2 : (fetchFromGitHubAPI agentDayFolder filename parser config b64 apiOut).success
      = false)
    (h2e : (fetchFromGitHubAPI agentDayFolder filename parser config b64 apiOut).error
      = some ma) :
    (loadAgentDataFromGitHub agentDayFolder filename parser (some mv) config b64
      rawOut apiOut).1.success = true ∧
    (loadAgentDataFromGitHub agentDayFolder filename parser (some mv) config b64
      rawOut apiOut).1.data = some mv ∧
    ∃ e, (loadAgentDataFromGitHub agentDayFolder filename parser (some mv) config b64
        rawOut apiOut).1.error = some e ∧
      e ≠ "" ∧ mentions mr e ∧ mentions ma e := by
  have hgh := @gh_of_bothFail_mock T agentDayFolder filename parser mv config
    b64 rawOut apiOut h1 h2
  refine ⟨by rw [hgh], by rw [hgh], ?_⟩
  refine ⟨"GitHub access failed, using mock data. Raw error: " ++
      ostr (fetchFromGitHubRaw agentDayFolder filename parser config rawOut).error ++
      ", API error: " ++
      ostr (fetchFromGitHubAPI agentDayFolder filename parser config b64 apiOut).error,
    by rw [hgh], ?_, ?_, ?_⟩
  · exact append_ne_empty_left _ _ (append_ne_empty_left _ _
      (append_ne_empty_left _ _ (by decide)))
  · exact mentions_intro ("GitHub access failed, using mock data. Raw error: ".data)
      ((", API error: " ++ ostr (fetchFromGitHubAPI agentDayFolder filename parser
        config b64 apiOut).error).data)
      (by simp [String.data_append, h1e, ostr])
  · exact mentions_intro (("GitHub access failed, using mock data. Raw error: " ++
      ostr (fetchFromGitHubRaw agentDayFolder filename parser config rawOut).error ++
      ", API error: ").data) []
      (by simp [String.data_append, h2e, ostr])

/-- C10 witness: raw fetch throws "RAWBOOM", API fetch throws
"APIBOOM", mock "MOCK" supplied. -/
theorem c10_witness :
    (loadAgentDataFromGitHub "d" "f" strParser (some "MOCK") DEFAULT_GITHUB_CONFIG id
      (.rthrow "RAWBOOM") (.athrow "APIBOOM")).1.success = true ∧
    (loadAgentDataFromGitHub "d" "f" strParser (some "MOCK") DEFAULT_GITHUB_CONFIG id
      (.rthrow "RAWBOOM") (.athrow "APIBOOM")).1.data = some "MOCK" ∧
    ∃ e, (loadAgentDataFromGitHub "d" "f" strParser (some "MOCK") DEFAULT_GITHUB_CONFIG
        id (.rthrow "RAWBOOM") (.athrow "APIBOOM")).1.error = some e ∧
      e ≠ "" ∧ mentions "RAWBOOM" e ∧ mentions "APIBOOM" e :=
  c10_mock_success_error "d" "f" strParser DEFAULT_GITHUB_CONFIG id
    (.rthrow "RAWBOOM") (.athrow "APIBOOM") "MOCK" "RAWBOOM" "APIBOOM"
    rfl rfl rfl rfl

end AgentData
